import Mathlib

/-!
Shallow embedding of the Apollo-18 firmware sources
`src/Engine/Firmware/ALERT.c` and `src/Engine/Firmware/RADIO.c`.

Modelling conventions:
- C enum values (`alert_level_t`, `alert_code_t`) are the `Nat` values the C
  compiler assigns them; comparisons in the source are integer comparisons,
  so they are integer comparisons here too (this also lets the model express
  out-of-range values passed through the public interface).
- The hardware hooks of ALERT.c (`hw_led_*`, `telemetry_send_alert`) have no
  return value and only produce effects, so their effect is tracked in the
  state: the three LED lines as three booleans, telemetry as the list of
  `(level, code)` pairs sent so far.
- The hardware hooks of RADIO.c return values, so they are modelled as an
  explicit record of pure functions (`RadioHw`); `hw_radio_receive` writes
  through the buffer pointer and the `out_length` pointer, so it is a
  function from the current buffer contents and the max length to the
  success flag, the new buffer contents and `some n` when it writes `n` to
  `*out_length` (`none` when it leaves `*out_length` untouched).
- `radio_send` / `radio_receive` results also record the argument list of
  every hardware-hook invocation the call performs, so that "the hook is not
  invoked" and "exactly this buffer and length are forwarded" are statable.
-/

/-! ### ALERT.c: enums -/

def ALERT_INFO : Nat := 0
def ALERT_WARNING : Nat := 1
def ALERT_CRITICAL : Nat := 2

def ALERT_NONE : Nat := 0
def ALERT_SENSOR_FAIL : Nat := 1
def ALERT_OVER_TEMPERATURE : Nat := 2
def ALERT_OVER_PRESSURE : Nat := 3
def ALERT_ENGINE_FAULT : Nat := 4
def ALERT_COMMUNICATION_LOSS : Nat := 5

/-! ### ALERT.c: state (module state plus tracked hardware effects) -/

/-- The three indicator lines driven by `hw_led_info` / `hw_led_warning` /
`hw_led_critical`. -/
structure AlertLeds where
  led_info : Bool
  led_warning : Bool
  led_critical : Bool
deriving DecidableEq, Repr

/-- `current_level` and `current_code` are the two static variables of
ALERT.c; `leds` tracks the LED hook effects and `telemetry` the list of
`telemetry_send_alert` notifications emitted so far. -/
structure AlertState where
  current_level : Nat
  current_code : Nat
  leds : AlertLeds
  telemetry : List (Nat × Nat)
deriving DecidableEq, Repr

/-! ### ALERT.c: operations -/

/-- `alert_clear_outputs`: drives all three LED lines low. -/
def alert_clear_outputs (s : AlertState) : AlertState :=
  { s with leds := { led_info := false, led_warning := false, led_critical := false } }

/-- `alert_set_outputs`: clears all outputs, then drives the line selected
by `level`; every level other than `ALERT_INFO` and `ALERT_WARNING` falls
into the `else` branch and drives the critical line. -/
def alert_set_outputs (s : AlertState) (level : Nat) : AlertState :=
  let s0 := alert_clear_outputs s
  if level = ALERT_INFO then
    { s0 with leds := { s0.leds with led_info := true } }
  else if level = ALERT_WARNING then
    { s0 with leds := { s0.leds with led_warning := true } }
  else
    { s0 with leds := { s0.leds with led_critical := true } }

/-- `telemetry_send_alert` hook: appends the notification to the log. -/
def telemetry_send_alert (s : AlertState) (level code : Nat) : AlertState :=
  { s with telemetry := s.telemetry ++ [(level, code)] }

/-- `alert_init`: state to `(ALERT_INFO, ALERT_NONE)`, outputs to Info. -/
def alert_init (s : AlertState) : AlertState :=
  alert_set_outputs
    { s with current_level := ALERT_INFO, current_code := ALERT_NONE }
    ALERT_INFO

/-- `alert_raise`: accepted iff `level >= current_level`; on acceptance the
pair is overwritten, outputs are re-driven and one telemetry notification is
sent. -/
def alert_raise (s : AlertState) (level code : Nat) : AlertState :=
  if s.current_level ≤ level then
    let s1 := { s with current_level := level, current_code := code }
    let s2 := alert_set_outputs s1 level
    telemetry_send_alert s2 level code
  else
    s

/-- `alert_clear`: unconditionally back to `(ALERT_INFO, ALERT_NONE)`,
outputs to Info. -/
def alert_clear (s : AlertState) : AlertState :=
  alert_set_outputs
    { s with current_level := ALERT_INFO, current_code := ALERT_NONE }
    ALERT_INFO

/-- `alert_get_level`: pure read. -/
def alert_get_level (s : AlertState) : Nat :=
  s.current_level

/-- `alert_get_code`: pure read. -/
def alert_get_code (s : AlertState) : Nat :=
  s.current_code

/-- A sequence of `alert_raise(level, code)` calls, applied in order. -/
def alert_run (s : AlertState) (calls : List (Nat × Nat)) : AlertState :=
  calls.foldl (fun t lc => alert_raise t lc.1 lc.2) s

/-- The LED configuration ALERT.c's output logic produces for `level`. -/
def leds_for (level : Nat) : AlertLeds :=
  { led_info := level == ALERT_INFO
    led_warning := level == ALERT_WARNING
    led_critical := level != ALERT_INFO && level != ALERT_WARNING }

/-- Number of indicator lines currently driven high. -/
def active_count (l : AlertLeds) : Nat :=
  (if l.led_info then 1 else 0) + (if l.led_warning then 1 else 0) +
    (if l.led_critical then 1 else 0)

/-! ### RADIO.c: configuration, state and hooks -/

def RADIO_TX_BUFFER_SIZE : Nat := 128
def RADIO_RX_BUFFER_SIZE : Nat := 128

/-- The four static variables of RADIO.c. Buffers are byte lists of length
128 in every reachable state. -/
structure RadioState where
  radio_initialized : Bool
  radio_link_ok : Bool
  tx_buffer : List Nat
  rx_buffer : List Nat
deriving DecidableEq, Repr

/-- The platform-supplied hardware hooks of RADIO.c, as pure functions.
`hw_radio_receive` takes the current contents of the buffer it is given and
the max length, and returns its success flag, the buffer contents after it
ran, and `some n` when it stores `n` through the `out_length` pointer
(`none` when it does not touch it). -/
structure RadioHw where
  hw_radio_init : Bool
  hw_radio_send : List Nat → Nat → Bool
  hw_radio_receive : List Nat → Nat → Bool × List Nat × Option Nat
  hw_radio_link_status : Bool

/-- `memcpy(dst, src, n)` on whole-buffer lists: the first `n` cells take
the first `n` cells of `src`, the rest of `dst` is untouched. -/
def memcpy_list (dst src : List Nat) (n : Nat) : List Nat :=
  src.take n ++ dst.drop n

/-- `clear_buffers`: zero-fills both buffers. -/
def clear_buffers (s : RadioState) : RadioState :=
  { s with
    tx_buffer := List.replicate RADIO_TX_BUFFER_SIZE 0
    rx_buffer := List.replicate RADIO_RX_BUFFER_SIZE 0 }

/-- `radio_init`: zero-fills the buffers, stores the init hook's result in
`radio_initialized`, resets `radio_link_ok`. -/
def radio_init (hw : RadioHw) (s : RadioState) : RadioState :=
  let s0 := clear_buffers s
  { s0 with radio_initialized := hw.hw_radio_init, radio_link_ok := false }

/-- `radio_is_ready`: returns the cached flag; the state is untouched. -/
def radio_is_ready (s : RadioState) : Bool × RadioState :=
  (s.radio_initialized, s)

/-- `radio_link_status`: re-polls the hook, stores and returns the fresh
result. -/
def radio_link_status (hw : RadioHw) (s : RadioState) : Bool × RadioState :=
  let ok := hw.hw_radio_link_status
  (ok, { s with radio_link_ok := ok })

/-- Result of a `radio_send` call: return value, module state afterwards,
and the `(buffer, length)` argument pairs of every `hw_radio_send`
invocation the call performed. -/
structure SendResult where
  ok : Bool
  state : RadioState
  hwCalls : List (List Nat × Nat)
deriving DecidableEq, Repr

/-- `radio_send(data, length)`: guard checks, then `memcpy` into
`tx_buffer`, then hand that buffer and length to `hw_radio_send`. -/
def radio_send (hw : RadioHw) (s : RadioState) (data : List Nat)
    (length : Nat) : SendResult :=
  if s.radio_initialized = false then
    { ok := false, state := s, hwCalls := [] }
  else if length = 0 ∨ RADIO_TX_BUFFER_SIZE < length then
    { ok := false, state := s, hwCalls := [] }
  else
    let tx := memcpy_list s.tx_buffer data length
    { ok := hw.hw_radio_send tx length
      state := { s with tx_buffer := tx }
      hwCalls := [(tx, length)] }

/-- Result of a `radio_receive` call: return value, module state
afterwards, the final value behind the caller's `out_length` pointer
(`none` when the pointer was null), and the `(buffer, max_length)` argument
pairs of every `hw_radio_receive` invocation. -/
structure ReceiveResult where
  ok : Bool
  state : RadioState
  out_length : Option Nat
  hwCalls : List (List Nat × Nat)
deriving DecidableEq, Repr

/-- `radio_receive(out_length)`: guard checks, then `*out_length = 0`,
then delegate to `hw_radio_receive` with `rx_buffer` and its capacity.
`out_present` models whether the caller passed a non-null pointer; the
final pointee is the hook's stored count when it wrote one, else the 0
stored before the call. -/
def radio_receive (hw : RadioHw) (s : RadioState) (out_present : Bool) :
    ReceiveResult :=
  if s.radio_initialized = false ∨ out_present = false then
    { ok := false, state := s, out_length := none, hwCalls := [] }
  else
    let r := hw.hw_radio_receive s.rx_buffer RADIO_RX_BUFFER_SIZE
    { ok := r.1
      state := { s with rx_buffer := r.2.1 }
      out_length := some (r.2.2.getD 0)
      hwCalls := [(s.rx_buffer, RADIO_RX_BUFFER_SIZE)] }

/-- `radio_rx_buffer`: read-only view of the receive buffer. -/
def radio_rx_buffer (s : RadioState) : List Nat :=
  s.rx_buffer

/-! ### Helper lemmas on ALERT.c operations -/

theorem alert_set_outputs_eq (s : AlertState) (level : Nat) :
    alert_set_outputs s level = { s with leds := leds_for level } := by
  unfold alert_set_outputs alert_clear_outputs leds_for
  by_cases h0 : level = ALERT_INFO
  · simp [h0, ALERT_INFO, ALERT_WARNING]
  · by_cases h1 : level = ALERT_WARNING
    · simp [h0, h1, ALERT_INFO, ALERT_WARNING]
    · simp [h0, h1]

theorem alert_raise_accept (s : AlertState) (level code : Nat)
    (h : s.current_level ≤ level) :
    alert_raise s level code =
      { current_level := level
        current_code := code
        leds := leds_for level
        telemetry := s.telemetry ++ [(level, code)] } := by
  unfold alert_raise telemetry_send_alert
  rw [if_pos h]
  simp only [alert_set_outputs_eq]

theorem alert_raise_reject (s : AlertState) (level code : Nat)
    (h : level < s.current_level) :
    alert_raise s level code = s := by
  unfold alert_raise
  rw [if_neg (Nat.not_le.mpr h)]

theorem alert_raise_level_le (s : AlertState) (level code : Nat) :
    s.current_level ≤ (alert_raise s level code).current_level := by
  by_cases h : s.current_level ≤ level
  · rw [alert_raise_accept s level code h]
    exact h
  · rw [alert_raise_reject s level code (Nat.not_le.mp h)]

/-! ### Claim theorems for ALERT.c -/

/-- Claim C1: over any sequence of `alert_raise(level, code)` calls starting
from any alert state, `current_level` is monotonically non-decreasing, and
`alert_clear` resets the state to `(ALERT_INFO, ALERT_NONE)` regardless of
the current state. -/
theorem alert_level_monotone_and_clear_resets (s : AlertState)
    (calls : List (Nat × Nat)) :
    s.current_level ≤ (alert_run s calls).current_level ∧
    (alert_clear s).current_level = ALERT_INFO ∧
    (alert_clear s).current_code = ALERT_NONE := by
  refine ⟨?_, ?_, ?_⟩
  · induction calls generalizing s with
    | nil => exact Nat.le_refl _
    | cons hd tl ih =>
        exact Nat.le_trans (alert_raise_level_le s hd.1 hd.2)
          (ih (alert_raise s hd.1 hd.2))
  · simp [alert_clear, alert_set_outputs_eq]
  · simp [alert_clear, alert_set_outputs_eq]

/-- Claim C2: `alert_raise(level, code)` is accepted iff
`level >= current_level` (numeric ordering `Info < Warning < Critical`, the
boundary `level = current_level` included); on acceptance the state becomes
exactly `(level, code)`, exactly one indicator — the one the output logic
selects for `level` — is active afterwards, and exactly one telemetry
notification `(level, code)` is appended. -/
theorem alert_raise_accepted_iff_ge (s : AlertState) (level code : Nat)
    (hlevel : level ≤ ALERT_CRITICAL) :
    (¬ s.current_level ≤ level → alert_raise s level code = s) ∧
    (s.current_level ≤ level →
      (alert_raise s level code).current_level = level ∧
      (alert_raise s level code).current_code = code ∧
      (alert_raise s level code).leds = leds_for level ∧
      active_count (alert_raise s level code).leds = 1 ∧
      (alert_raise s level code).telemetry = s.telemetry ++ [(level, code)]) := by
  constructor
  · intro h
    exact alert_raise_reject s level code (Nat.not_le.mp h)
  · intro h
    rw [alert_raise_accept s level code h]
    refine ⟨rfl, rfl, rfl, ?_, rfl⟩
    show active_count (leds_for level) = 1
    unfold ALERT_CRITICAL at hlevel
    interval_cases level <;> decide

/-- Witness for C2 at the concrete state `(Warning, SensorFail)` and call
`raise(Warning, OverPressure)`: the same-severity raise takes effect. -/
theorem alert_raise_accepted_iff_ge_witness :
    (alert_raise ⟨1, 1, leds_for 1, []⟩ 1 3).current_level = 1 ∧
    (alert_raise ⟨1, 1, leds_for 1, []⟩ 1 3).current_code = 3 ∧
    (alert_raise ⟨1, 1, leds_for 1, []⟩ 1 3).leds = leds_for 1 ∧
    active_count (alert_raise ⟨1, 1, leds_for 1, []⟩ 1 3).leds = 1 ∧
    (alert_raise ⟨1, 1, leds_for 1, []⟩ 1 3).telemetry =
      ([] : List (Nat × Nat)) ++ [(1, 3)] :=
  (alert_raise_accepted_iff_ge ⟨1, 1, leds_for 1, []⟩ 1 3 (by decide)).2
    (by decide)

/-- Claim C5: `alert_raise(level, code)` with `level` strictly below the
current severity is a no-op: stored pair, indicator outputs and telemetry
log (hence its call count) are exactly as before. -/
theorem alert_raise_below_current_noop (s : AlertState) (level code : Nat)
    (h : level < s.current_level) :
    alert_raise s level code = s ∧
    (alert_raise s level code).telemetry.length = s.telemetry.length := by
  have heq := alert_raise_reject s level code h
  exact ⟨heq, by rw [heq]⟩

/-- Witness for C5: raising `(Info, None)` over a `Critical` state changes
nothing. -/
theorem alert_raise_below_current_noop_witness :
    alert_raise ⟨2, 4, leds_for 2, [(2, 4)]⟩ 0 0 = ⟨2, 4, leds_for 2, [(2, 4)]⟩ ∧
    (alert_raise ⟨2, 4, leds_for 2, [(2, 4)]⟩ 0 0).telemetry.length =
      ([(2, 4)] : List (Nat × Nat)).length :=
  alert_raise_below_current_noop ⟨2, 4, leds_for 2, [(2, 4)]⟩ 0 0 (by decide)

/-- Claim C8: after `alert_init` or `alert_clear`, `alert_get_level` is
`ALERT_INFO`, `alert_get_code` is `ALERT_NONE`, only the Info indicator is
active, and no telemetry notification was emitted. -/
theorem alert_init_clear_baseline (s : AlertState) :
    alert_get_level (alert_init s) = ALERT_INFO ∧
    alert_get_code (alert_init s) = ALERT_NONE ∧
    (alert_init s).leds =
      { led_info := true, led_warning := false, led_critical := false } ∧
    (alert_init s).telemetry = s.telemetry ∧
    alert_get_level (alert_clear s) = ALERT_INFO ∧
    alert_get_code (alert_clear s) = ALERT_NONE ∧
    (alert_clear s).leds =
      { led_info := true, led_warning := false, led_critical := false } ∧
    (alert_clear s).telemetry = s.telemetry := by
  simp [alert_init, alert_clear, alert_get_level, alert_get_code,
    alert_set_outputs_eq, leds_for, ALERT_INFO, ALERT_NONE, ALERT_WARNING]

/-- Claim C9: for every `level` that is neither `ALERT_INFO` nor
`ALERT_WARNING` — including out-of-range values above `ALERT_CRITICAL` —
the output logic drives the Critical indicator, and an accepted
`alert_raise` leaves exactly the Critical indicator active. -/
theorem alert_non_enum_level_drives_critical (s : AlertState)
    (level code : Nat) (h0 : level ≠ ALERT_INFO) (h1 : level ≠ ALERT_WARNING)
    (hacc : s.current_level ≤ level) :
    (alert_set_outputs s level).leds =
      { led_info := false, led_warning := false, led_critical := true } ∧
    (alert_raise s level code).leds =
      { led_info := false, led_warning := false, led_critical := true } := by
  rw [alert_set_outputs_eq, alert_raise_accept s level code hacc]
  constructor <;>
    (simp [leds_for, ALERT_INFO, ALERT_WARNING]; exact ⟨h0, h1, h0, h1⟩)

/-- Witness for C9 at the out-of-range level 7. -/
theorem alert_non_enum_level_drives_critical_witness :
    (alert_set_outputs ⟨0, 0, leds_for 0, []⟩ 7).leds =
      { led_info := false, led_warning := false, led_critical := true } ∧
    (alert_raise ⟨0, 0, leds_for 0, []⟩ 7 4).leds =
      { led_info := false, led_warning := false, led_critical := true } :=
  alert_non_enum_level_drives_critical ⟨0, 0, leds_for 0, []⟩ 7 4
    (by decide) (by decide) (by decide)

/-! ### Concrete fixtures for radio witnesses -/

/-- A hook set whose transmit hook reports failure (hardware-level send
error) and whose receive hook fails without writing anything. -/
def hwSendFail : RadioHw :=
  { hw_radio_init := true
    hw_radio_send := fun _ _ => false
    hw_radio_receive := fun b _ => (false, b, none)
    hw_radio_link_status := false }

/-- The module state right after a successful `radio_init`. -/
def radioReadyState : RadioState :=
  { radio_initialized := true
    radio_link_ok := false
    tx_buffer := List.replicate 128 0
    rx_buffer := List.replicate 128 0 }

/-- The module state before `radio_init` (or after a failed one). -/
def radioUninitState : RadioState :=
  { radio_initialized := false
    radio_link_ok := false
    tx_buffer := List.replicate 128 0
    rx_buffer := List.replicate 128 0 }

/-! ### Claim theorems for RADIO.c -/

/-- Claim C4: `radio_send(data, length)` returns false with no state change
and no hardware-hook invocation when the radio is uninitialized, `length`
is 0, or `length` exceeds 128; otherwise it copies exactly
`data[0..length)` into the transmit buffer (the tail beyond `length` is
untouched), forwards exactly that buffer and that length to the hardware
send hook, and returns the hook's result. -/
theorem radio_send_spec (hw : RadioHw) (s : RadioState) (data : List Nat)
    (length : Nat) (hdata : length ≤ data.length) :
    (s.radio_initialized = false ∨ length = 0 ∨ RADIO_TX_BUFFER_SIZE < length →
      radio_send hw s data length = { ok := false, state := s, hwCalls := [] }) ∧
    (s.radio_initialized = true → length ≠ 0 → length ≤ RADIO_TX_BUFFER_SIZE →
      radio_send hw s data length =
        { ok := hw.hw_radio_send (memcpy_list s.tx_buffer data length) length
          state := { s with tx_buffer := memcpy_list s.tx_buffer data length }
          hwCalls := [(memcpy_list s.tx_buffer data length, length)] } ∧
      (radio_send hw s data length).state.tx_buffer.take length = data.take length ∧
      (radio_send hw s data length).state.tx_buffer.drop length = s.tx_buffer.drop length ∧
      (radio_send hw s data length).hwCalls =
        [((radio_send hw s data length).state.tx_buffer, length)]) := by
  have hlen : (data.take length).length = length := by
    rw [List.length_take]
    exact min_eq_left hdata
  constructor
  · intro hguard
    unfold radio_send
    rcases hguard with h | h | h
    · rw [h]
      simp
    · by_cases hi : s.radio_initialized = false
      · rw [hi]
        simp
      · simp [hi, h]
    · by_cases hi : s.radio_initialized = false
      · rw [hi]
        simp
      · simp [hi, h]
  · intro hinit h0 hle
    have hmain : radio_send hw s data length =
        { ok := hw.hw_radio_send (memcpy_list s.tx_buffer data length) length
          state := { s with tx_buffer := memcpy_list s.tx_buffer data length }
          hwCalls := [(memcpy_list s.tx_buffer data length, length)] } := by
      unfold radio_send
      rw [hinit]
      simp [h0, Nat.not_lt.mpr hle]
    refine ⟨hmain, ?_, ?_, ?_⟩
    · rw [hmain]
      show (memcpy_list s.tx_buffer data length).take length = data.take length
      unfold memcpy_list
      rw [List.take_append_of_le_length (Nat.le_of_eq hlen.symm),
        List.take_take, min_self]
    · rw [hmain]
      show (memcpy_list s.tx_buffer data length).drop length = s.tx_buffer.drop length
      unfold memcpy_list
      calc (data.take length ++ s.tx_buffer.drop length).drop length
          = (data.take length ++ s.tx_buffer.drop length).drop
              (data.take length).length := by rw [hlen]
        _ = s.tx_buffer.drop length := List.drop_left _ _
    · rw [hmain]

/-- Witness for C4: a valid 2-byte send from the freshly-initialized state
copies the two bytes, leaves the rest of the buffer zero, forwards the
buffer to the hook and returns the hook's (failing) result. -/
theorem radio_send_spec_witness :
    radio_send hwSendFail radioReadyState [5, 6] 2 =
      { ok := hwSendFail.hw_radio_send
          (memcpy_list radioReadyState.tx_buffer [5, 6] 2) 2
        state := { radioReadyState with
          tx_buffer := memcpy_list radioReadyState.tx_buffer [5, 6] 2 }
        hwCalls := [(memcpy_list radioReadyState.tx_buffer [5, 6] 2, 2)] } ∧
    (radio_send hwSendFail radioReadyState [5, 6] 2).state.tx_buffer.take 2 =
      ([5, 6] : List Nat).take 2 ∧
    (radio_send hwSendFail radioReadyState [5, 6] 2).state.tx_buffer.drop 2 =
      radioReadyState.tx_buffer.drop 2 ∧
    (radio_send hwSendFail radioReadyState [5, 6] 2).hwCalls =
      [((radio_send hwSendFail radioReadyState [5, 6] 2).state.tx_buffer, 2)] :=
  (radio_send_spec hwSendFail radioReadyState [5, 6] 2 (by decide)).2
    (by decide) (by decide) (by decide)

/-- Claim C6: `radio_receive(out_length)` returns false without touching
buffers when the radio is uninitialized or the `out_length` pointer is
null; otherwise it delegates to the hardware receive hook with the internal
receive buffer and its full capacity 128 as the max length, returns the
hook's result, and — having stored 0 through `out_length` before the call —
leaves `out_length` at 0 whenever the hook does not write a count. -/
theorem radio_receive_spec (hw : RadioHw) (s : RadioState)
    (out_present : Bool) :
    RADIO_RX_BUFFER_SIZE = 128 ∧
    (s.radio_initialized = false ∨ out_present = false →
      radio_receive hw s out_present =
        { ok := false, state := s, out_length := none, hwCalls := [] }) ∧
    (s.radio_initialized = true → out_present = true →
      radio_receive hw s out_present =
        { ok := (hw.hw_radio_receive s.rx_buffer RADIO_RX_BUFFER_SIZE).1
          state := { s with
            rx_buffer := (hw.hw_radio_receive s.rx_buffer RADIO_RX_BUFFER_SIZE).2.1 }
          out_length :=
            some (((hw.hw_radio_receive s.rx_buffer RADIO_RX_BUFFER_SIZE).2.2).getD 0)
          hwCalls := [(s.rx_buffer, RADIO_RX_BUFFER_SIZE)] } ∧
      ((hw.hw_radio_receive s.rx_buffer RADIO_RX_BUFFER_SIZE).2.2 = none →
        (radio_receive hw s out_present).out_length = some 0)) := by
  refine ⟨rfl, ?_, ?_⟩
  · intro hguard
    unfold radio_receive
    rcases hguard with h | h
    · rw [h]
      simp
    · rw [h]
      simp
  · intro hinit houtp
    have hmain : radio_receive hw s out_present =
        { ok := (hw.hw_radio_receive s.rx_buffer RADIO_RX_BUFFER_SIZE).1
          state := { s with
            rx_buffer := (hw.hw_radio_receive s.rx_buffer RADIO_RX_BUFFER_SIZE).2.1 }
          out_length :=
            some (((hw.hw_radio_receive s.rx_buffer RADIO_RX_BUFFER_SIZE).2.2).getD 0)
          hwCalls := [(s.rx_buffer, RADIO_RX_BUFFER_SIZE)] } := by
      unfold radio_receive
      rw [hinit, houtp]
      simp
    refine ⟨hmain, ?_⟩
    intro hnone
    rw [hmain]
    simp [hnone]

/-- Witness for C6: a receive in the ready state with a failing,
non-writing hook returns that hook's false and reports `out_length = 0`. -/
theorem radio_receive_spec_witness :
    radio_receive hwSendFail radioReadyState true =
      { ok := (hwSendFail.hw_radio_receive radioReadyState.rx_buffer
          RADIO_RX_BUFFER_SIZE).1
        state := { radioReadyState with
          rx_buffer := (hwSendFail.hw_radio_receive radioReadyState.rx_buffer
            RADIO_RX_BUFFER_SIZE).2.1 }
        out_length := some (((hwSendFail.hw_radio_receive
          radioReadyState.rx_buffer RADIO_RX_BUFFER_SIZE).2.2).getD 0)
        hwCalls := [(radioReadyState.rx_buffer, RADIO_RX_BUFFER_SIZE)] } ∧
    ((hwSendFail.hw_radio_receive radioReadyState.rx_buffer
        RADIO_RX_BUFFER_SIZE).2.2 = none →
      (radio_receive hwSendFail radioReadyState true).out_length = some 0) :=
  (radio_receive_spec hwSendFail radioReadyState true).2.2
    (by decide) (by decide)

/-- Claim C7: `radio_init` zero-fills both buffers, sets the initialized
flag to exactly the hardware init hook's boolean result, and
unconditionally resets `radio_link_ok` to false whatever its prior value;
`radio_link_status` re-polls the hook and stores and returns that fresh
result. -/
theorem radio_init_and_link_status_spec (hw : RadioHw) (s : RadioState) :
    radio_init hw s =
      { radio_initialized := hw.hw_radio_init
        radio_link_ok := false
        tx_buffer := List.replicate 128 0
        rx_buffer := List.replicate 128 0 } ∧
    (radio_link_status hw s).1 = hw.hw_radio_link_status ∧
    (radio_link_status hw s).2 =
      { s with radio_link_ok := hw.hw_radio_link_status } := by
  exact ⟨rfl, rfl, rfl⟩

/-- Claim C10: buffer ownership frame conditions — `radio_send` never
modifies the receive buffer, `radio_receive` never modifies the transmit
buffer, and `radio_link_status` / `radio_is_ready` modify neither buffer
nor the initialized flag. -/
theorem radio_buffer_ownership (hw : RadioHw) (s : RadioState)
    (data : List Nat) (length : Nat) (out_present : Bool) :
    (radio_send hw s data length).state.rx_buffer = s.rx_buffer ∧
    (radio_receive hw s out_present).state.tx_buffer = s.tx_buffer ∧
    (radio_link_status hw s).2.tx_buffer = s.tx_buffer ∧
    (radio_link_status hw s).2.rx_buffer = s.rx_buffer ∧
    (radio_link_status hw s).2.radio_initialized = s.radio_initialized ∧
    (radio_is_ready s).1 = s.radio_initialized ∧
    (radio_is_ready s).2 = s := by
  refine ⟨?_, ?_, rfl, rfl, rfl, rfl, rfl⟩
  · unfold radio_send
    split
    · rfl
    · split
      · rfl
      · rfl
  · unfold radio_receive
    split
    · rfl
    · rfl

/-- Claim C3 counterexample: with the radio initialized and a hardware send
hook that reports failure, `radio_send` of one byte returns false yet has
already overwritten the start of the transmit buffer — a failed radio
operation that does not leave state unchanged. -/
theorem radio_send_hook_failure_mutates_state :
    (radio_send hwSendFail radioReadyState [1] 1).ok = false ∧
    (radio_send hwSendFail radioReadyState [1] 1).state ≠ radioReadyState ∧
    (radio_send hwSendFail radioReadyState [1] 1).state.tx_buffer.take 1 ≠
      radioReadyState.tx_buffer.take 1 := by
  decide

/-- Claim C3 (amended): every `radio_send` / `radio_receive` call leaves
the initialized and link flags unchanged; a call rejected by the guard
checks — which never invokes a hardware hook — returns false and leaves the
whole module state unchanged with no partial buffer writes. (When a
hardware hook itself reports failure, the call still returns false, but the
destination buffer may already have been written, as the counterexample
shows.) -/
theorem radio_failure_state_preservation (hw : RadioHw) (s : RadioState)
    (data : List Nat) (length : Nat) (out_present : Bool) :
    (radio_send hw s data length).state.radio_initialized =
      s.radio_initialized ∧
    (radio_send hw s data length).state.radio_link_ok = s.radio_link_ok ∧
    (radio_receive hw s out_present).state.radio_initialized =
      s.radio_initialized ∧
    (radio_receive hw s out_present).state.radio_link_ok = s.radio_link_ok ∧
    ((radio_send hw s data length).hwCalls = [] →
      (radio_send hw s data length).ok = false ∧
      (radio_send hw s data length).state = s) ∧
    ((radio_receive hw s out_present).hwCalls = [] →
      (radio_receive hw s out_present).ok = false ∧
      (radio_receive hw s out_present).state = s) := by
  have hsend : (radio_send hw s data length).state.radio_initialized =
        s.radio_initialized ∧
      (radio_send hw s data length).state.radio_link_ok = s.radio_link_ok := by
    unfold radio_send
    split
    · exact ⟨rfl, rfl⟩
    · split
      · exact ⟨rfl, rfl⟩
      · exact ⟨rfl, rfl⟩
  have hrecv : (radio_receive hw s out_present).state.radio_initialized =
        s.radio_initialized ∧
      (radio_receive hw s out_present).state.radio_link_ok = s.radio_link_ok := by
    unfold radio_receive
    split
    · exact ⟨rfl, rfl⟩
    · exact ⟨rfl, rfl⟩
  refine ⟨hsend.1, hsend.2, hrecv.1, hrecv.2, ?_, ?_⟩
  · unfold radio_send
    split
    · intro _
      exact ⟨rfl, rfl⟩
    · split
      · intro _
        exact ⟨rfl, rfl⟩
      · intro h
        exact absurd h (by simp)
  · unfold radio_receive
    split
    · intro _
      exact ⟨rfl, rfl⟩
    · intro h
      exact absurd h (by simp)

/-- Witness for the amended C3: a send in the uninitialized state invokes
no hook, returns false and leaves the state untouched. -/
theorem radio_failure_state_preservation_witness :
    (radio_send hwSendFail radioUninitState [1] 1).ok = false ∧
    (radio_send hwSendFail radioUninitState [1] 1).state = radioUninitState :=
  (radio_failure_state_preservation hwSendFail radioUninitState [1] 1
    true).2.2.2.2.1 (by decide)
